import Mathlib

/-
Verification of the wow-server-sim core against its specification.

The C++ sources under src/server are shallowly embedded as Lean functions:
  * hash maps (std::unordered_map) become association lists with a fixed
    iteration order (the properties proved here do not depend on the
    unspecified unordered_map order);
  * machine integers become Nat/Int; i32/i64 arithmetic is modelled on
    unbounded Int (signed overflow is UB in the source and not modelled),
    while the one reachable unsigned wraparound (the uint32_t decrement of
    cast_ticks_remaining at 0) is modelled explicitly;
  * f32 arithmetic (damage mitigation) is modelled on Rat; the concrete
    inputs used in counterexamples are exactly representable in f32, so
    the Rat value and the f32 value coincide there;
  * telemetry calls are side effects invisible to every property treated
    here and are dropped;
  * C++ exceptions become explicit outcome values.
-/

-- The core Rat operations ship marked irreducible, which blocks evaluation
-- of concrete instances by the decide tactic; restoring the default
-- reducibility only affects elaboration, not the checked proofs.
set_option allowUnsafeReducibility true in
attribute [semireducible] Rat.mul Rat.add Rat.sub Rat.neg Rat.div Rat.inv Rat.floor

namespace Wow

/-- Association-list lookup: first binding of the key, as
unordered_map::find on a map with unique keys. -/
def alookup {κ α : Type} [DecidableEq κ] : List (κ × α) → κ → Option α
  | [], _ => none
  | (k, v) :: rest, key => if k = key then some v else alookup rest key

/-- Replace the value bound to the first occurrence of a key (in-place
mutation through an unordered_map iterator). Keys never change. -/
def aupdate {κ α : Type} [DecidableEq κ] : List (κ × α) → κ → (α → α) → List (κ × α)
  | [], _, _ => []
  | (k, v) :: rest, key, f =>
    if k = key then (k, f v) :: rest else (k, v) :: aupdate rest key f

/-- Erase the first binding of a key (unordered_map::erase / extract). -/
def aerase {κ α : Type} [DecidableEq κ] : List (κ × α) → κ → List (κ × α)
  | [], _ => []
  | (k, v) :: rest, key => if k = key then rest else (k, v) :: aerase rest key

/-- Apply a function to every mapped value, keys untouched (a loop over the
map mutating only mapped values). -/
def mapValues {κ α : Type} (f : α → α) (m : List (κ × α)) : List (κ × α) :=
  m.map (fun p => (p.1, f p.2))

-- ---------------------------------------------------------------------------
-- Data model (src/server/world/entity.h)
-- ---------------------------------------------------------------------------

/-- EntityType (src/server/world/entity.h). -/
inductive EntityType
  | PLAYER
  | NPC
deriving DecidableEq

/-- Position: three f32 world coordinates, modelled on Rat. -/
structure Position where
  x : Rat := 0
  y : Rat := 0
  z : Rat := 0
deriving DecidableEq

/-- CombatState (src/server/world/entity.h). health/max_health are i32,
armor/resistance f32, threat_table an unordered_map from u64 id to f32. -/
structure CombatState where
  health : Int := 100
  max_health : Int := 100
  armor : Rat := 0
  resistance : Rat := 0
  is_alive : Bool := true
  base_attack_damage : Int := 0
  threat_table : List (Nat × Rat) := []
deriving DecidableEq

/-- CastState (src/server/world/entity.h). spell_id and
cast_ticks_remaining are u32, gcd_expires_tick is u64. -/
structure CastState where
  is_casting : Bool := false
  spell_id : Nat := 0
  cast_ticks_remaining : Nat := 0
  gcd_expires_tick : Nat := 0
  moved_this_tick : Bool := false
deriving DecidableEq

/-- Entity (src/server/world/entity.h): id, type, position and the two
processor-owned sub-states. -/
structure Entity where
  session_id : Nat
  entity_type : EntityType := .PLAYER
  position : Position := {}
  cast_state : CastState := {}
  combat_state : CombatState := {}
deriving DecidableEq

/-- The zone entity map: session_id / npc id -> Entity. -/
abbrev EntMap := List (Nat × Entity)

-- ---------------------------------------------------------------------------
-- Events (src/server/events/event.h, movement.h, spellcast.h, combat.h)
-- ---------------------------------------------------------------------------

/-- DamageType (src/server/events/combat.h). -/
inductive DamageType
  | PHYSICAL
  | MAGICAL
deriving DecidableEq

/-- CombatAction (src/server/events/combat.h): ATTACK is the only action. -/
inductive CombatAction
  | ATTACK
deriving DecidableEq

/-- SpellAction (src/server/events/spellcast.h). -/
inductive SpellAction
  | CAST_START
  | INTERRUPT
deriving DecidableEq

/-- MovementEvent payload (src/server/events/movement.h). -/
structure MovementEvent where
  session_id : Nat
  position : Position
deriving DecidableEq

/-- SpellCastEvent payload (src/server/events/spellcast.h). -/
structure SpellCastEvent where
  session_id : Nat
  action : SpellAction
  spell_id : Nat := 0
  cast_time_ticks : Nat := 0
deriving DecidableEq

/-- CombatEvent payload (src/server/events/combat.h). base_damage is i32. -/
structure CombatEvent where
  session_id : Nat
  action : CombatAction := .ATTACK
  target_session_id : Nat
  base_damage : Int
  damage_type : DamageType
deriving DecidableEq

/-- GameEvent: the runtime-type-tagged event hierarchy as a tagged variant. -/
inductive GameEvent
  | movement (e : MovementEvent)
  | spell_cast (e : SpellCastEvent)
  | combat (e : CombatEvent)
deriving DecidableEq

-- ---------------------------------------------------------------------------
-- Combat processor (src/server/events/combat.cpp)
-- ---------------------------------------------------------------------------

/-- kMaxMitigation = 0.75f (src/server/events/combat.h). -/
def kMaxMitigation : Rat := 3 / 4

/-- std::round: round half away from zero, on exact Rat arithmetic. -/
def roundHalfAwayFromZero (q : Rat) : Int :=
  if q < 0 then -(Rat.floor (-q + 1 / 2)) else Rat.floor (q + 1 / 2)

/-- compute_actual_damage (combat.cpp lines 63-68):
base_damage * (1 - clamp(mitigation, 0, 0.75)), rounded. -/
def compute_actual_damage (base_damage : Int) (mitigation : Rat) : Int :=
  let clamped := min (max mitigation 0) kMaxMitigation
  roundHalfAwayFromZero ((base_damage : Rat) * (1 - clamped))

/-- get_mitigation (combat.cpp lines 71-74). -/
def get_mitigation (target_state : CombatState) (type : DamageType) : Rat :=
  match type with
  | .PHYSICAL => target_state.armor
  | .MAGICAL => target_state.resistance

/-- CombatResult (src/server/events/combat.h). -/
structure CombatResult where
  attacks_processed : Nat := 0
  attacks_missed : Nat := 0
  kills : Nat := 0
  npc_attacks : Nat := 0
  total_damage_dealt : Int := 0
deriving DecidableEq

/-- operator[] += on the threat table: add to the existing entry or
default-insert 0 and add (combat.cpp line 88). -/
def addThreat : List (Nat × Rat) → Nat → Rat → List (Nat × Rat)
  | [], k, d => [(k, d)]
  | (k', v) :: rest, k, d =>
    if k' = k then (k', v + d) :: rest else (k', v) :: addThreat rest k d

/-- apply_damage (combat.cpp lines 77-116): mitigate, subtract health, add
threat, inline death check. Returns the updated target and result. -/
def apply_damage (attacker_id : Nat) (base_damage : Int) (damage_type : DamageType)
    (target : Entity) (result : CombatResult) : Entity × CombatResult :=
  let mitigation := get_mitigation target.combat_state damage_type
  let actual_damage := compute_actual_damage base_damage mitigation
  let cs : CombatState := { target.combat_state with
    health := target.combat_state.health - actual_damage,
    threat_table := addThreat target.combat_state.threat_table attacker_id (actual_damage : Rat) }
  let result' := { result with
    total_damage_dealt := result.total_damage_dealt + actual_damage }
  if cs.health ≤ 0 then
    ({ target with combat_state := { cs with is_alive := false } },
     { result' with kills := result'.kills + 1 })
  else
    ({ target with combat_state := cs }, result')

/-- One iteration of combat step 1 (combat.cpp lines 127-158): validate
attacker and target, apply damage. -/
def processAttackEvent (entities : EntMap) (result : CombatResult) :
    GameEvent → EntMap × CombatResult
  | .combat ce =>
    match ce.action with
    | .ATTACK =>
      let attacker_id := ce.session_id
      let target_id := ce.target_session_id
      match alookup entities attacker_id with
      | none => (entities, { result with attacks_missed := result.attacks_missed + 1 })
      | some attacker =>
        if attacker.combat_state.is_alive = false then
          (entities, { result with attacks_missed := result.attacks_missed + 1 })
        else
          match alookup entities target_id with
          | none => (entities, { result with attacks_missed := result.attacks_missed + 1 })
          | some target =>
            if target.combat_state.is_alive = false then
              (entities, { result with attacks_missed := result.attacks_missed + 1 })
            else
              let ad := apply_damage attacker_id ce.base_damage ce.damage_type target result
              (aupdate entities target_id (fun _ => ad.1),
               { ad.2 with attacks_processed := ad.2.attacks_processed + 1 })
  | _ => (entities, result)

/-- Combat step 1: fold the attack handler over the event batch in order. -/
def combat_step1 (events : List GameEvent) (entities : EntMap) (result : CombatResult) :
    EntMap × CombatResult :=
  events.foldl (fun p ev => processAttackEvent p.1 p.2 ev) (entities, result)

/-- Highest-threat living target search (combat.cpp lines 178-186), starting
from best_target = 0, best_threat = -1.0. -/
def select_highest_threat (entities : EntMap) (threat : List (Nat × Rat)) : Nat × Rat :=
  threat.foldl
    (fun best p =>
      match alookup entities p.1 with
      | some t => if t.combat_state.is_alive && decide (p.2 > best.2) then (p.1, p.2) else best
      | none => best)
    (0, -1)

/-- One iteration of combat step 2 (combat.cpp lines 161-201): a living NPC
with positive base damage and non-empty threat attacks its highest-threat
living target. -/
def npc_auto_attack_step (entities : EntMap) (result : CombatResult) (npc_id : Nat) :
    EntMap × CombatResult :=
  match alookup entities npc_id with
  | none => (entities, result)
  | some npc =>
    if npc.entity_type ≠ EntityType.NPC then (entities, result)
    else if npc.combat_state.is_alive = false then (entities, result)
    else if npc.combat_state.base_attack_damage ≤ 0 then (entities, result)
    else if npc.combat_state.threat_table = [] then (entities, result)
    else
      let best := select_highest_threat entities npc.combat_state.threat_table
      if best.2 < 0 then (entities, result)
      else
        match alookup entities best.1 with
        | none => (entities, result)
        | some target =>
          let ad := apply_damage npc_id npc.combat_state.base_attack_damage .PHYSICAL target result
          (aupdate entities best.1 (fun _ => ad.1),
           { ad.2 with npc_attacks := ad.2.npc_attacks + 1 })

/-- Combat step 2: iterate the entity map (keys are fixed by step 2, so the
iteration is over the key list, looking each entry up in the current map,
exactly as the in-place C++ loop observes earlier mutations). -/
def combat_step2 (entities : EntMap) (result : CombatResult) : EntMap × CombatResult :=
  (entities.map Prod.fst).foldl (fun p nid => npc_auto_attack_step p.1 p.2 nid) (entities, result)

/-- Threat cleanup on one entity (combat.cpp lines 204-217): a living
entity's threat table drops every key bound to a present-and-dead entity.
The alive test reads the map as it stands at step 3 entry: step 3 only
mutates threat tables, never is_alive, so a single snapshot is faithful. -/
def cleanupEntity (entities : EntMap) (e : Entity) : Entity :=
  if e.combat_state.is_alive then
    { e with combat_state := { e.combat_state with
        threat_table := e.combat_state.threat_table.filter (fun p =>
          match alookup entities p.1 with
          | some t => t.combat_state.is_alive
          | none => true) } }
  else e

/-- Combat step 3 (combat.cpp lines 204-217). -/
def combat_cleanup (entities : EntMap) : EntMap :=
  mapValues (cleanupEntity entities) entities

/-- CombatProcessor::process (combat.cpp lines 120-220): attacks, NPC
auto-attacks, threat cleanup. Returns the mutated entity map and result. -/
def CombatProcessor.process (events : List GameEvent) (entities : EntMap) :
    EntMap × CombatResult :=
  let s1 := combat_step1 events entities {}
  let s2 := combat_step2 s1.1 s1.2
  (combat_cleanup s2.1, s2.2)

-- ---------------------------------------------------------------------------
-- Spell-cast processor (src/server/events/spellcast.cpp)
-- ---------------------------------------------------------------------------

/-- kGlobalCooldownTicks = 30 (src/server/events/spellcast.h). -/
def kGlobalCooldownTicks : Nat := 30

/-- SpellCastResult (src/server/events/spellcast.h). -/
structure SpellCastResult where
  casts_started : Nat := 0
  casts_completed : Nat := 0
  casts_interrupted : Nat := 0
  gcd_blocked : Nat := 0
deriving DecidableEq

/-- Step 1, movement cancellation (spellcast.cpp lines 49-66): an entity
with moved_this_tick and is_casting has its casting fields cleared. -/
def spell_step1 : EntMap → SpellCastResult → EntMap × SpellCastResult
  | [], result => ([], result)
  | (sid, e) :: rest, result =>
    if e.cast_state.moved_this_tick && e.cast_state.is_casting then
      let e' := { e with cast_state := { e.cast_state with
        is_casting := false, spell_id := 0, cast_ticks_remaining := 0 } }
      let out := spell_step1 rest
        { result with casts_interrupted := result.casts_interrupted + 1 }
      ((sid, e') :: out.1, out.2)
    else
      let out := spell_step1 rest result
      ((sid, e) :: out.1, out.2)

/-- One iteration of step 2 (spellcast.cpp lines 69-103): an INTERRUPT
event cancels the originating session's active cast; a no-op when the
session is absent or not casting. -/
def processInterruptEvent (entities : EntMap) (result : SpellCastResult) :
    GameEvent → EntMap × SpellCastResult
  | .spell_cast se =>
    if se.action ≠ SpellAction.INTERRUPT then (entities, result)
    else
      match alookup entities se.session_id with
      | none => (entities, result)
      | some e =>
        if e.cast_state.is_casting then
          (aupdate entities se.session_id (fun x => { x with cast_state := { x.cast_state with
             is_casting := false, spell_id := 0, cast_ticks_remaining := 0 } }),
           { result with casts_interrupted := result.casts_interrupted + 1 })
        else (entities, result)
  | _ => (entities, result)

/-- The uint32_t prefix decrement in step 3: wraps to 2^32 - 1 at 0 (for
in-range values; larger Nat inputs are unrepresentable in the source). -/
def u32_decrement (x : Nat) : Nat :=
  if x = 0 then 4294967295 else x - 1

/-- Step 3, advance timers (spellcast.cpp lines 106-126): every casting
entity's cast_ticks_remaining is decremented; at 0 the cast completes. -/
def spell_step3 : EntMap → SpellCastResult → EntMap × SpellCastResult
  | [], result => ([], result)
  | (sid, e) :: rest, result =>
    if e.cast_state.is_casting then
      let remaining := u32_decrement e.cast_state.cast_ticks_remaining
      if remaining = 0 then
        let e' := { e with cast_state := { e.cast_state with
          cast_ticks_remaining := remaining, is_casting := false, spell_id := 0 } }
        let out := spell_step3 rest
          { result with casts_completed := result.casts_completed + 1 }
        ((sid, e') :: out.1, out.2)
      else
        let e' := { e with cast_state := { e.cast_state with
          cast_ticks_remaining := remaining } }
        let out := spell_step3 rest result
        ((sid, e') :: out.1, out.2)
    else
      let out := spell_step3 rest result
      ((sid, e) :: out.1, out.2)

/-- One iteration of step 4 (spellcast.cpp lines 129-202): a CAST_START
event is dropped for an unknown session; blocked (counted in gcd_blocked)
when gcd_expires_tick > current_tick; otherwise the GCD is set to
current_tick + 30 and the cast starts — instantly completing when
cast_time_ticks = 0, without touching the casting fields. -/
def process_cast_start_event (current_tick : Nat) (entities : EntMap)
    (result : SpellCastResult) : GameEvent → EntMap × SpellCastResult
  | .spell_cast se =>
    if se.action ≠ SpellAction.CAST_START then (entities, result)
    else
      match alookup entities se.session_id with
      | none => (entities, result)
      | some e =>
        if e.cast_state.gcd_expires_tick > current_tick then
          (entities, { result with gcd_blocked := result.gcd_blocked + 1 })
        else
          let cs1 := { e.cast_state with
            gcd_expires_tick := current_tick + kGlobalCooldownTicks }
          if se.cast_time_ticks = 0 then
            (aupdate entities se.session_id (fun _ => { e with cast_state := cs1 }),
             { result with casts_started := result.casts_started + 1,
                           casts_completed := result.casts_completed + 1 })
          else
            let cs2 := { cs1 with is_casting := true, spell_id := se.spell_id,
                                  cast_ticks_remaining := se.cast_time_ticks }
            (aupdate entities se.session_id (fun _ => { e with cast_state := cs2 }),
             { result with casts_started := result.casts_started + 1 })
  | _ => (entities, result)

/-- Step 5 (spellcast.cpp lines 205-207): clear moved_this_tick everywhere. -/
def spell_step5 (entities : EntMap) : EntMap :=
  mapValues (fun e => { e with cast_state := { e.cast_state with moved_this_tick := false } }) entities

/-- SpellCastProcessor::process (spellcast.cpp lines 41-210): the five
ordered steps over the shared batch and entity map. -/
def SpellCastProcessor.process (events : List GameEvent) (entities : EntMap)
    (current_tick : Nat) : EntMap × SpellCastResult :=
  let s1 := spell_step1 entities {}
  let s2 := events.foldl (fun p ev => processInterruptEvent p.1 p.2 ev) s1
  let s3 := spell_step3 s2.1 s2.2
  let s4 := events.foldl (fun p ev => process_cast_start_event current_tick p.1 p.2 ev) s3
  (spell_step5 s4.1, s4.2)

-- ---------------------------------------------------------------------------
-- Movement processor (src/server/events/movement.cpp)
-- ---------------------------------------------------------------------------

/-- MovementProcessor::process (movement.cpp lines 29-74): overwrite the
position of each known session named in a Movement event; return the number
of distinct sessions updated (the unordered_set count). -/
def MovementProcessor.process (events : List GameEvent) (entities : EntMap) :
    EntMap × Nat :=
  let out := events.foldl
    (fun (p : EntMap × List Nat) ev =>
      match ev with
      | .movement me =>
        match alookup p.1 me.session_id with
        | none => p
        | some _ =>
          (aupdate p.1 me.session_id (fun x => { x with position := me.position }),
           if me.session_id ∈ p.2 then p.2 else me.session_id :: p.2)
      | _ => p)
    (entities, [])
  (out.1, out.2.length)

-- ---------------------------------------------------------------------------
-- Zone (src/server/world/zone.h, zone.cpp)
-- ---------------------------------------------------------------------------

/-- ZoneState (src/server/world/zone.h). -/
inductive ZoneState
  | ACTIVE
  | DEGRADED
  | CRASHED
deriving DecidableEq

/-- ZoneConfig (src/server/world/zone.h). -/
structure ZoneConfig where
  zone_id : Nat := 0
  name : String := ""
deriving DecidableEq

/-- Zone (src/server/world/zone.h): config, state, monotonic counters,
entity map and event queue. Wall-clock duration fields are not modelled. -/
structure Zone where
  config : ZoneConfig := {}
  state : ZoneState := .ACTIVE
  total_ticks : Nat := 0
  error_count : Nat := 0
  entities : EntMap := []
  event_queue : List GameEvent := []
deriving DecidableEq

/-- ZoneTickResult (src/server/world/zone.h), without duration_ms. -/
structure ZoneTickResult where
  zone_id : Nat := 0
  tick : Nat := 0
  events_processed : Nat := 0
  entities_moved : Nat := 0
  spell_result : SpellCastResult := {}
  combat_result : CombatResult := {}
  had_error : Bool := false
  error_message : String := ""
deriving DecidableEq

/-- Zone::add_entity (zone.cpp lines 19-23): try_emplace, failing on a
duplicate session_id. -/
def Zone.add_entity (z : Zone) (entity : Entity) : Zone × Bool :=
  if (alookup z.entities entity.session_id).isSome then (z, false)
  else ({ z with entities := z.entities ++ [(entity.session_id, entity)] }, true)

/-- Zone::take_entity (zone.cpp lines 29-35): extract the node and return
the moved-out entity, or none. -/
def Zone.take_entity (z : Zone) (session_id : Nat) : Option (Entity × Zone) :=
  match alookup z.entities session_id with
  | none => none
  | some e => some (e, { z with entities := aerase z.entities session_id })

/-- What the guarded section of Zone::tick left behind: the entity map and
queue it produced, plus the per-phase counters recorded so far. -/
structure BodyState where
  entities : EntMap := []
  queue : List GameEvent := []
  events_processed : Nat := 0
  entities_moved : Nat := 0
  spell_result : SpellCastResult := {}
  combat_result : CombatResult := {}
deriving DecidableEq

/-- Outcome of the guarded section of Zone::tick (zone.cpp lines 62-80):
either it ran to completion, or some hook / drain / processor threw,
leaving the partially mutated state behind. -/
inductive BodyOutcome
  | ok (s : BodyState)
  | thrown (msg : String) (s : BodyState)
deriving DecidableEq

/-- Zone::tick (zone.cpp lines 55-146) around an arbitrary guarded body.
On success the recovery transition CRASHED -> DEGRADED -> ACTIVE fires; on
a caught throw the zone is CRASHED, error_count increments and the result
carries had_error. total_ticks increments on both paths (line 119 sits
after the catch blocks). -/
def Zone.tickWith (z : Zone) (current_tick : Nat) (body : BodyOutcome) :
    Zone × ZoneTickResult :=
  match body with
  | .ok s =>
    let state' := match z.state with
      | .CRASHED => ZoneState.DEGRADED
      | .DEGRADED => ZoneState.ACTIVE
      | .ACTIVE => ZoneState.ACTIVE
    ({ z with
       state := state'
       entities := s.entities
       event_queue := s.queue
       total_ticks := z.total_ticks + 1 },
     { zone_id := z.config.zone_id
       tick := current_tick
       events_processed := s.events_processed
       entities_moved := s.entities_moved
       spell_result := s.spell_result
       combat_result := s.combat_result
       had_error := false
       error_message := "" })
  | .thrown msg s =>
    ({ z with
       state := ZoneState.CRASHED
       error_count := z.error_count + 1
       entities := s.entities
       event_queue := s.queue
       total_ticks := z.total_ticks + 1 },
     { zone_id := z.config.zone_id
       tick := current_tick
       events_processed := s.events_processed
       entities_moved := s.entities_moved
       spell_result := s.spell_result
       combat_result := s.combat_result
       had_error := true
       error_message := msg })

/-- The concrete guarded body of Zone::tick (zone.cpp lines 62-80): pre-tick
hook, drain, movement -> spell-cast -> combat, post-tick hook. A hook either
transforms the zone's entity map and queue (fault callbacks mutate both) or
throws; a hook that throws after partial mutation is covered by the
generality of Zone.tickWith over arbitrary BodyOutcome values. -/
def Zone.run_body (z : Zone) (current_tick : Nat)
    (pre_tick_hook : EntMap → List GameEvent → Except String (EntMap × List GameEvent))
    (post_tick_hook : EntMap → List GameEvent → Except String (EntMap × List GameEvent)) :
    BodyOutcome :=
  match pre_tick_hook z.entities z.event_queue with
  | .error msg => .thrown msg { entities := z.entities, queue := z.event_queue }
  | .ok (ents0, queue0) =>
    let events := queue0
    let m := MovementProcessor.process events ents0
    let sp := SpellCastProcessor.process events m.1 current_tick
    let cb := CombatProcessor.process events sp.1
    match post_tick_hook cb.1 [] with
    | .error msg => .thrown msg
        { entities := cb.1
          queue := []
          events_processed := events.length
          entities_moved := m.2
          spell_result := sp.2
          combat_result := cb.2 }
    | .ok (ents1, queue1) => .ok
        { entities := ents1
          queue := queue1
          events_processed := events.length
          entities_moved := m.2
          spell_result := sp.2
          combat_result := cb.2 }

/-- Zone::tick with the concrete pipeline and explicit hooks. -/
def Zone.tick (z : Zone) (current_tick : Nat)
    (pre_tick_hook : EntMap → List GameEvent → Except String (EntMap × List GameEvent))
    (post_tick_hook : EntMap → List GameEvent → Except String (EntMap × List GameEvent)) :
    Zone × ZoneTickResult :=
  Zone.tickWith z current_tick (Zone.run_body z current_tick pre_tick_hook post_tick_hook)

-- ---------------------------------------------------------------------------
-- Fault registry (src/server/fault/injector.h, injector.cpp)
-- ---------------------------------------------------------------------------

/-- FaultMode (src/server/fault/injector.h). -/
inductive FaultMode
  | TICK_SCOPED
  | AMBIENT
deriving DecidableEq

/-- FaultConfig (src/server/fault/injector.h); the free-form JSON params
play no role in the registry logic treated here. -/
structure FaultConfig where
  target_zone_id : Nat := 0
  duration_ticks : Nat := 0
deriving DecidableEq

/-- The observable registry-facing state of a concrete Fault object: its
id, mode and active flag. Every scenario's virtual deactivate() clears its
active flag (src/server/fault/scenarios.cpp). -/
structure Fault where
  id : String
  mode : FaultMode
  active : Bool := false
deriving DecidableEq

/-- Fault::deactivate as implemented by every concrete scenario: the fault
becomes inactive. -/
def Fault.fault_deactivate (f : Fault) : Fault :=
  { f with active := false }

/-- ActivationInfo (src/server/fault/injector.h lines 127-130). -/
structure ActivationInfo where
  config : FaultConfig := {}
  ticks_elapsed : Nat := 0
deriving DecidableEq

/-- FaultRegistry state (src/server/fault/injector.h lines 132-134). -/
structure FaultRegistry where
  faults : List (String × Fault) := []
  activations : List (String × ActivationInfo) := []
  current_tick : Nat := 0
deriving DecidableEq

/-- FaultRegistry::is_active (injector.cpp lines 65-71). -/
def FaultRegistry.is_active (r : FaultRegistry) (id : String) : Bool :=
  match alookup r.faults id with
  | none => false
  | some f => f.active

/-- FaultRegistry::deactivate (injector.cpp lines 36-49): false only when
the id is not registered; otherwise the fault's deactivator runs, the
activation record is erased and the call returns true — whether or not the
fault was active. -/
def FaultRegistry.deactivate (r : FaultRegistry) (id : String) : FaultRegistry × Bool :=
  match alookup r.faults id with
  | none => (r, false)
  | some _ =>
    ({ r with
       faults := aupdate r.faults id Fault.fault_deactivate
       activations := aerase r.activations id }, true)

/-- FaultRegistry::execute_pre_tick_faults (injector.cpp lines 144-146).
The body in the source is a stub ("implemented in Commit 6"): it touches
nothing and dispatches no fault. The third component records the
(fault id, zone id) per-tick callback invocations the call performs —
there are none. -/
def FaultRegistry.execute_pre_tick_faults (r : FaultRegistry) (zone : Zone) :
    FaultRegistry × Zone × List (String × Nat) :=
  (r, zone, [])

-- ---------------------------------------------------------------------------
-- Zone manager (src/server/world/zone_manager.cpp)
-- ---------------------------------------------------------------------------

/-- ZoneManager state (src/server/world/zone_manager.h): owned zones and
the session -> zone index. -/
structure ZoneManager where
  zones : List (Nat × Zone) := []
  session_zone_map : List (Nat × Nat) := []
deriving DecidableEq

/-- The value a moved-from Entity holds after std::move: the trivially
copyable members (ids, enums, positions, cast state, combat scalars) keep
their values, while the moved-from unordered_map threat_table is left
empty (libstdc++ and libc++ behavior; the standard only guarantees a valid
unspecified state). -/
def Entity.movedFrom (e : Entity) : Entity :=
  { e with combat_state := { e.combat_state with threat_table := [] } }

/-- ZoneManager::transfer_session (zone_manager.cpp lines 65-97): look up
the mapping and both zones, take the entity out of the source, add it to
the target; on rejection roll back into the source. The rollback re-adds
`*entity` after it was already moved into the failed add_entity call, so
the rolled-back value is the moved-from entity (the spec's noted
use-after-move). The mapping is updated only on success. -/
def ZoneManager.transfer_session (m : ZoneManager) (session_id : Nat)
    (target_zone_id : Nat) : ZoneManager × Bool :=
  match alookup m.session_zone_map session_id with
  | none => (m, false)
  | some src_zid =>
    match alookup m.zones target_zone_id with
    | none => (m, false)
    | some _ =>
      match alookup m.zones src_zid with
      | none => (m, false)
      | some source_zone =>
        match source_zone.take_entity session_id with
        | none => (m, false)
        | some (entity, source_zone') =>
          let zones1 := aupdate m.zones src_zid (fun _ => source_zone')
          match alookup zones1 target_zone_id with
          | none => (m, false)
          | some target_zone =>
            let added := target_zone.add_entity entity
            if added.2 then
              ({ m with
                 zones := aupdate zones1 target_zone_id (fun _ => added.1)
                 session_zone_map := aupdate m.session_zone_map session_id
                   (fun _ => target_zone_id) }, true)
            else
              let rolled := source_zone'.add_entity entity.movedFrom
              ({ m with zones := aupdate zones1 src_zid (fun _ => rolled.1) }, false)

-- ---------------------------------------------------------------------------
-- Association-list lemmas
-- ---------------------------------------------------------------------------

theorem alookup_aupdate_self {κ α : Type} [DecidableEq κ] (m : List (κ × α)) (key : κ)
    (f : α → α) (v : α) (h : alookup m key = some v) :
    alookup (aupdate m key f) key = some (f v) := by
  induction m with
  | nil => simp [alookup] at h
  | cons p rest ih =>
    obtain ⟨k, w⟩ := p
    by_cases hk : k = key
    · simp [alookup, aupdate, hk] at h ⊢
      exact congrArg f h
    · simp [alookup, aupdate, hk] at h ⊢
      exact ih h

theorem alookup_eq_none_of_not_mem_keys {κ α : Type} [DecidableEq κ]
    (m : List (κ × α)) (key : κ) (h : key ∉ m.map Prod.fst) :
    alookup m key = none := by
  induction m with
  | nil => simp [alookup]
  | cons p rest ih =>
    obtain ⟨k, w⟩ := p
    simp only [List.map_cons, List.mem_cons] at h
    push_neg at h
    simp only [alookup, if_neg (Ne.symm h.1)]
    exact ih h.2

theorem alookup_aerase_self {κ α : Type} [DecidableEq κ] (m : List (κ × α)) (key : κ)
    (hnodup : (m.map Prod.fst).Nodup) : alookup (aerase m key) key = none := by
  induction m with
  | nil => simp [alookup, aerase]
  | cons p rest ih =>
    obtain ⟨k, w⟩ := p
    simp only [List.map_cons, List.nodup_cons] at hnodup
    by_cases hk : k = key
    · subst hk
      simp only [aerase, if_pos rfl]
      exact alookup_eq_none_of_not_mem_keys rest k hnodup.1
    · simp only [aerase, if_neg hk, alookup, if_neg hk]
      exact ih hnodup.2

theorem alookup_mapValues {κ α : Type} [DecidableEq κ] (f : α → α) (m : List (κ × α))
    (key : κ) : alookup (mapValues f m) key = (alookup m key).map f := by
  induction m with
  | nil => simp [alookup, mapValues]
  | cons p rest ih =>
    obtain ⟨k, w⟩ := p
    by_cases hk : k = key
    · simp [alookup, mapValues, hk]
    · simp only [mapValues, List.map_cons, alookup, if_neg hk]
      exact ih

-- ---------------------------------------------------------------------------
-- C1: tick isolation and counting
-- ---------------------------------------------------------------------------

/-- C1: whatever the guarded body of Zone::tick does — the hooks, the drained
batch and the three processors, including throwing — total_ticks advances by
exactly one; and when the body unwinds, the result carries had_error, the
zone is CRASHED and error_count increases by exactly one. -/
theorem tick_always_counts_and_isolates (z : Zone) (current_tick : Nat)
    (body : BodyOutcome) :
    (Zone.tickWith z current_tick body).1.total_ticks = z.total_ticks + 1 ∧
    (∀ msg s, body = BodyOutcome.thrown msg s →
      (Zone.tickWith z current_tick body).2.had_error = true ∧
      (Zone.tickWith z current_tick body).1.state = ZoneState.CRASHED ∧
      (Zone.tickWith z current_tick body).1.error_count = z.error_count + 1) := by
  cases body <;> simp [Zone.tickWith]

/-- Witness for C1 at a concrete crashing tick. -/
theorem tick_always_counts_and_isolates_witness :
    (Zone.tickWith { config := { zone_id := 1, name := "Elwynn Forest" } } 5
      (BodyOutcome.thrown "boom" {})).1.total_ticks = 1 ∧
    (Zone.tickWith { config := { zone_id := 1, name := "Elwynn Forest" } } 5
      (BodyOutcome.thrown "boom" {})).1.state = ZoneState.CRASHED :=
  ⟨(tick_always_counts_and_isolates { config := { zone_id := 1, name := "Elwynn Forest" } }
      5 (BodyOutcome.thrown "boom" {})).1,
   ((tick_always_counts_and_isolates { config := { zone_id := 1, name := "Elwynn Forest" } }
      5 (BodyOutcome.thrown "boom" {})).2 "boom" {} rfl).2.1⟩

-- ---------------------------------------------------------------------------
-- C3: the recovery arc
-- ---------------------------------------------------------------------------

/-- C3: a successful tick advances the recovery arc exactly one step
(CRASHED to DEGRADED, DEGRADED to ACTIVE, ACTIVE stays ACTIVE), a failed
tick never advances it (the zone ends CRASHED), and two consecutive
successful ticks from CRASHED pass through DEGRADED and end ACTIVE. -/
theorem successful_tick_recovery_arc (z : Zone) (current_tick : Nat) (s : BodyState) :
    (z.state = ZoneState.CRASHED →
      (Zone.tickWith z current_tick (BodyOutcome.ok s)).1.state = ZoneState.DEGRADED) ∧
    (z.state = ZoneState.DEGRADED →
      (Zone.tickWith z current_tick (BodyOutcome.ok s)).1.state = ZoneState.ACTIVE) ∧
    (z.state = ZoneState.ACTIVE →
      (Zone.tickWith z current_tick (BodyOutcome.ok s)).1.state = ZoneState.ACTIVE) ∧
    (∀ msg s', (Zone.tickWith z current_tick (BodyOutcome.thrown msg s')).1.state
      = ZoneState.CRASHED) ∧
    (z.state = ZoneState.CRASHED → ∀ tick' s',
      (Zone.tickWith z current_tick (BodyOutcome.ok s)).1.state = ZoneState.DEGRADED ∧
      (Zone.tickWith (Zone.tickWith z current_tick (BodyOutcome.ok s)).1 tick'
        (BodyOutcome.ok s')).1.state = ZoneState.ACTIVE) := by
  obtain ⟨cfg, st, tt, ec, ents, q⟩ := z
  cases st <;> simp [Zone.tickWith]

/-- Witness for C3: a concrete crashed zone recovering over two ticks. -/
theorem successful_tick_recovery_arc_witness :
    (Zone.tickWith { state := ZoneState.CRASHED } 3 (BodyOutcome.ok {})).1.state
      = ZoneState.DEGRADED ∧
    (Zone.tickWith (Zone.tickWith { state := ZoneState.CRASHED } 3
      (BodyOutcome.ok {})).1 4 (BodyOutcome.ok {})).1.state = ZoneState.ACTIVE :=
  (successful_tick_recovery_arc { state := ZoneState.CRASHED } 3 {}).2.2.2.2 rfl 4 {}

-- ---------------------------------------------------------------------------
-- C2: execute_pre_tick_faults is an unimplemented stub
-- ---------------------------------------------------------------------------

/-- A registry holding the active tick-scoped latency-spike fault targeting
all zones (target_zone_id 0), as the repo's own registry tests build it. -/
def c2registry : FaultRegistry :=
  { faults := [("latency-spike",
      { id := "latency-spike", mode := .TICK_SCOPED, active := true })]
    activations := [("latency-spike", { config := { target_zone_id := 0 } })] }

/-- The zone the repo's registry tests dispatch into. -/
def c2zone : Zone := { config := { zone_id := 1, name := "Test Zone" } }

/-- C2 (code bug): with an active tick-scoped fault targeting all zones,
execute_pre_tick_faults performs no callback dispatch at all — the source
body is the stub "implemented in Commit 6", contradicting the claim and the
repo's own FaultRegistry zone-integration tests. -/
theorem execute_pre_tick_faults_stub_dispatches_nothing :
    c2registry.is_active "latency-spike" = true ∧
    (alookup c2registry.faults "latency-spike").map Fault.mode
      = some FaultMode.TICK_SCOPED ∧
    (c2registry.execute_pre_tick_faults c2zone).2.2 = [] := by decide

-- ---------------------------------------------------------------------------
-- C7: deactivate on a registered but inactive fault
-- ---------------------------------------------------------------------------

/-- A registry with one registered, never-activated fault. -/
def c7registry : FaultRegistry :=
  { faults := [("latency-spike",
      { id := "latency-spike", mode := .TICK_SCOPED, active := false })] }

/-- C7 counterexample: deactivate on a registered-but-inactive fault
returns true (a success result), not a failure as the claim states. -/
theorem deactivate_inactive_returns_success :
    (alookup c7registry.faults "latency-spike").isSome = true ∧
    c7registry.is_active "latency-spike" = false ∧
    (c7registry.deactivate "latency-spike").2 = true := by decide

/-- C7 amended: FaultRegistry::deactivate fails (returning false, changing
nothing) exactly when the id is not registered; on a registered fault —
active or not — it returns true, leaves the fault inactive and erases any
activation record. -/
theorem deactivate_fails_only_when_unregistered (r : FaultRegistry) (id : String)
    (hnodup : (r.activations.map Prod.fst).Nodup) :
    (alookup r.faults id = none → r.deactivate id = (r, false)) ∧
    (∀ f, alookup r.faults id = some f →
      (r.deactivate id).2 = true ∧
      (r.deactivate id).1.is_active id = false ∧
      alookup (r.deactivate id).1.activations id = none) := by
  constructor
  · intro h
    simp [FaultRegistry.deactivate, h]
  · intro f h
    refine ⟨?_, ?_, ?_⟩
    · simp [FaultRegistry.deactivate, h]
    · simp only [FaultRegistry.deactivate, h, FaultRegistry.is_active]
      rw [alookup_aupdate_self r.faults id Fault.fault_deactivate f h]
      rfl
    · simp only [FaultRegistry.deactivate, h]
      exact alookup_aerase_self r.activations id hnodup

/-- Witness for C7's amended theorem at a registered inactive fault. -/
theorem deactivate_fails_only_when_unregistered_witness :
    (c7registry.deactivate "latency-spike").2 = true :=
  ((deactivate_fails_only_when_unregistered c7registry "latency-spike"
    (by decide)).2
    { id := "latency-spike", mode := .TICK_SCOPED, active := false }
    (by decide)).1

-- ---------------------------------------------------------------------------
-- C9: transfer rollback loses the threat table
-- ---------------------------------------------------------------------------

/-- The transferring entity: non-trivial position and a non-empty threat
table. -/
def c9entity : Entity :=
  { session_id := 100
    position := { x := 7, y := 8, z := 9 }
    combat_state := { threat_table := [(7, 25)] } }

/-- Session 100 lives in zone 1; zone 2 already holds a (different) entity
under the same id 100, so the transfer's add into zone 2 is rejected. -/
def c9manager : ZoneManager :=
  { zones := [(1, { config := { zone_id := 1, name := "Elwynn Forest" }
                    entities := [(100, c9entity)] }),
              (2, { config := { zone_id := 2, name := "Westfall" }
                    entities := [(100, { session_id := 100 })] })]
    session_zone_map := [(100, 1)] }

/-- C9 (code bug): on target rejection the transfer reports failure and the
mapping stays on the source zone — but the rolled-back entity is the
moved-from value: its scalar sub-state (position etc.) survives while its
threat table is emptied, so the full sub-state is NOT intact. -/
theorem transfer_rollback_drops_threat_table :
    c9entity.combat_state.threat_table = [(7, 25)] ∧
    (c9manager.transfer_session 100 2).2 = false ∧
    alookup (c9manager.transfer_session 100 2).1.session_zone_map 100 = some 1 ∧
    (alookup (c9manager.transfer_session 100 2).1.zones 1).map
      (fun z => (alookup z.entities 100).map (fun e => e.position))
      = some (some { x := 7, y := 8, z := 9 }) ∧
    (alookup (c9manager.transfer_session 100 2).1.zones 1).map
      (fun z => (alookup z.entities 100).map (fun e => e.combat_state.threat_table))
      = some (some []) := by decide

-- ---------------------------------------------------------------------------
-- C5: the GCD comparison is strict
-- ---------------------------------------------------------------------------

/-- C5: in the CastStart step at tick T, the GCD check is strict. For a
present entity with gcd_expires_tick = T the cast proceeds (casts_started
increments, gcd_blocked does not, and an instant cast also completes);
with gcd_expires_tick > T the attempt is blocked: gcd_blocked increments,
no cast starts and the entity map is untouched. -/
theorem gcd_check_is_strict (current_tick : Nat) (entities : EntMap)
    (result : SpellCastResult) (se : SpellCastEvent)
    (haction : se.action = SpellAction.CAST_START)
    (e : Entity) (hpresent : alookup entities se.session_id = some e) :
    (e.cast_state.gcd_expires_tick = current_tick →
      (process_cast_start_event current_tick entities result
        (.spell_cast se)).2.casts_started = result.casts_started + 1 ∧
      (process_cast_start_event current_tick entities result
        (.spell_cast se)).2.gcd_blocked = result.gcd_blocked ∧
      (se.cast_time_ticks = 0 →
        (process_cast_start_event current_tick entities result
          (.spell_cast se)).2.casts_completed = result.casts_completed + 1)) ∧
    (e.cast_state.gcd_expires_tick > current_tick →
      (process_cast_start_event current_tick entities result
        (.spell_cast se)).2.gcd_blocked = result.gcd_blocked + 1 ∧
      (process_cast_start_event current_tick entities result
        (.spell_cast se)).2.casts_started = result.casts_started ∧
      (process_cast_start_event current_tick entities result
        (.spell_cast se)).2.casts_completed = result.casts_completed ∧
      (process_cast_start_event current_tick entities result
        (.spell_cast se)).1 = entities) := by
  constructor
  · intro hgcd
    by_cases hinstant : se.cast_time_ticks = 0 <;>
      simp [process_cast_start_event, haction, hpresent, hgcd, hinstant]
  · intro hgcd
    simp [process_cast_start_event, haction, hpresent, hgcd]

/-- Witness for C5: at tick 10 an entity whose GCD expires exactly at tick
10 gets its instant cast through; at tick 9 the same entity is blocked. -/
theorem gcd_check_is_strict_witness :
    (process_cast_start_event 10
      [(1, { session_id := 1, cast_state := { gcd_expires_tick := 10 } })] {}
      (.spell_cast { session_id := 1, action := .CAST_START, spell_id := 42 })).2.casts_started
      = 1 ∧
    (process_cast_start_event 9
      [(1, { session_id := 1, cast_state := { gcd_expires_tick := 10 } })] {}
      (.spell_cast { session_id := 1, action := .CAST_START, spell_id := 42 })).2.gcd_blocked
      = 1 :=
  ⟨((gcd_check_is_strict 10
      [(1, { session_id := 1, cast_state := { gcd_expires_tick := 10 } })] {}
      { session_id := 1, action := .CAST_START, spell_id := 42 } rfl
      { session_id := 1, cast_state := { gcd_expires_tick := 10 } }
      (by decide)).1 rfl).1,
   ((gcd_check_is_strict 9
      [(1, { session_id := 1, cast_state := { gcd_expires_tick := 10 } })] {}
      { session_id := 1, action := .CAST_START, spell_id := 42 } rfl
      { session_id := 1, cast_state := { gcd_expires_tick := 10 } }
      (by decide)).2 (by decide)).1⟩

-- ---------------------------------------------------------------------------
-- C10: a blocked attempt changes nothing
-- ---------------------------------------------------------------------------

/-- C10: a CastStart for a present, GCD-blocked entity leaves the whole
entity map — in particular that entity's entire cast state, including
gcd_expires_tick — unchanged; the only effect of the event is the
gcd_blocked counter. Repeated blocked attempts therefore never extend the
GCD. -/
theorem blocked_cast_start_is_pure_skip (current_tick : Nat) (entities : EntMap)
    (result : SpellCastResult) (se : SpellCastEvent)
    (haction : se.action = SpellAction.CAST_START)
    (e : Entity) (hpresent : alookup entities se.session_id = some e)
    (hgcd : e.cast_state.gcd_expires_tick > current_tick) :
    (process_cast_start_event current_tick entities result (.spell_cast se)).1
      = entities ∧
    (process_cast_start_event current_tick entities result (.spell_cast se)).2
      = { result with gcd_blocked := result.gcd_blocked + 1 } := by
  simp [process_cast_start_event, haction, hpresent, hgcd]

/-- Witness for C10 at a concrete blocked attempt. -/
theorem blocked_cast_start_is_pure_skip_witness :
    (process_cast_start_event 9
      [(1, { session_id := 1, cast_state := { gcd_expires_tick := 10 } })] {}
      (.spell_cast { session_id := 1, action := .CAST_START, spell_id := 42 })).1
      = [(1, { session_id := 1, cast_state := { gcd_expires_tick := 10 } })] :=
  (blocked_cast_start_is_pure_skip 9
    [(1, { session_id := 1, cast_state := { gcd_expires_tick := 10 } })] {}
    { session_id := 1, action := .CAST_START, spell_id := 42 } rfl
    { session_id := 1, cast_state := { gcd_expires_tick := 10 } }
    (by decide) (by decide)).1

-- ---------------------------------------------------------------------------
-- C6: the instant-cast path
-- ---------------------------------------------------------------------------

/-- An entity mid-cast (spell 7, 2 ticks remaining) whose GCD has long
expired. -/
def c6ents : EntMap :=
  [(1, { session_id := 1
         cast_state := { is_casting := true, spell_id := 7, cast_ticks_remaining := 2 } })]

/-- One instant CastStart for that entity. -/
def c6evs : List GameEvent :=
  [.spell_cast { session_id := 1, action := .CAST_START, spell_id := 42, cast_time_ticks := 0 }]

/-- C6 counterexample: the instant CastStart at tick 50 is processed (not
GCD-blocked: both counters increment and the GCD is set to 50 + 30), yet
afterwards is_casting is still true and spell_id still 7 — the instant path
leaves the casting fields unchanged rather than leaving them unset, so the
claim's "leaves is_casting false (and spell_id and cast_ticks_remaining
unset)" fails for an entity that was already mid-cast. -/
theorem instant_cast_counterexample :
    (SpellCastProcessor.process c6evs c6ents 50).2
      = { casts_started := 1, casts_completed := 1 } ∧
    (alookup (SpellCastProcessor.process c6evs c6ents 50).1 1).map
      (fun e => e.cast_state)
      = some { is_casting := true, spell_id := 7, cast_ticks_remaining := 1
               gcd_expires_tick := 80 } := by decide

/-- C6 amended: an instant CastStart (cast_time_ticks = 0) processed at
tick T for a present, unblocked entity increments both casts_started and
casts_completed in that same tick, does not modify is_casting, spell_id or
cast_ticks_remaining (so they remain false/unset whenever the entity was
not already casting), and sets gcd_expires_tick to T + 30. -/
theorem instant_cast_sets_gcd_only (current_tick : Nat) (entities : EntMap)
    (result : SpellCastResult) (se : SpellCastEvent)
    (haction : se.action = SpellAction.CAST_START)
    (hinstant : se.cast_time_ticks = 0)
    (e : Entity) (hpresent : alookup entities se.session_id = some e)
    (hgcd : ¬ e.cast_state.gcd_expires_tick > current_tick) :
    (process_cast_start_event current_tick entities result (.spell_cast se)).2
      = { result with casts_started := result.casts_started + 1
                      casts_completed := result.casts_completed + 1 } ∧
    alookup (process_cast_start_event current_tick entities result
      (.spell_cast se)).1 se.session_id
      = some { e with cast_state := { e.cast_state with
          gcd_expires_tick := current_tick + kGlobalCooldownTicks } } := by
  constructor
  · simp [process_cast_start_event, haction, hpresent, hgcd, hinstant]
  · simp [process_cast_start_event, haction, hpresent, hgcd, hinstant]
    exact alookup_aupdate_self entities se.session_id _ e hpresent

/-- Witness for C6's amended theorem: an idle entity stays idle, only its
GCD moves to 15 + 30 = 45. -/
theorem instant_cast_sets_gcd_only_witness :
    alookup (process_cast_start_event 15 [(1, { session_id := 1 })] {}
      (.spell_cast { session_id := 1, action := .CAST_START, spell_id := 42 })).1 1
      = some { session_id := 1, cast_state := { gcd_expires_tick := 45 } } :=
  (instant_cast_sets_gcd_only 15 [(1, { session_id := 1 })] {}
    { session_id := 1, action := .CAST_START, spell_id := 42 } rfl rfl
    { session_id := 1 } (by decide) (by decide)).2

-- ---------------------------------------------------------------------------
-- C4: threat keys after cleanup
-- ---------------------------------------------------------------------------

/-- The property C4 claims of the post-combat entity map: every key in any
entity's threat table resolves to a living entity. -/
def ThreatKeysLive (entities : EntMap) : Prop :=
  ∀ p ∈ entities, ∀ q ∈ p.2.combat_state.threat_table,
    ((alookup entities q.1).map (fun t => t.combat_state.is_alive)).getD false = true

/-- A single living entity whose threat table holds a stale key 999 that
refers to no entity at all (the referenced entity left the zone on an
earlier tick). -/
def c4ents : EntMap :=
  [(1, { session_id := 1, combat_state := { threat_table := [(999, 5)] } })]

/-- C4 counterexample: threat cleanup only erases keys bound to a present
AND dead entity, so a key referring to a no-longer-existing entity survives
the combat processor and the claimed property fails. -/
theorem threat_cleanup_keeps_dangling_keys :
    (alookup (CombatProcessor.process [] c4ents).1 1).map
      (fun e => e.combat_state.threat_table) = some [(999, 5)] ∧
    ¬ ThreatKeysLive (CombatProcessor.process [] c4ents).1 := by
  constructor
  · decide
  · intro h
    have := h (1, { session_id := 1, combat_state := { threat_table := [(999, 5)] } })
      (by decide) (999, 5) (by decide)
    revert this
    decide

/-- Cleanup never changes an entity's life flag. -/
theorem cleanupEntity_is_alive (m : EntMap) (x : Entity) :
    (cleanupEntity m x).combat_state.is_alive = x.combat_state.is_alive := by
  by_cases h : x.combat_state.is_alive <;> simp [cleanupEntity, h]

/-- C4 amended: after the combat processor runs, no LIVING entity's threat
table holds a key that resolves to a dead entity: every threat key of a
living entity that resolves at all resolves to a living entity. (Keys
bound to absent entities, and the tables of dead entities, may persist.) -/
theorem threat_cleanup_for_living_entities (events : List GameEvent) (ents : EntMap)
    (eid : Nat) (e : Entity)
    (he : alookup (CombatProcessor.process events ents).1 eid = some e)
    (halive : e.combat_state.is_alive = true)
    (k : Nat) (v : Rat) (hk : (k, v) ∈ e.combat_state.threat_table)
    (t : Entity)
    (ht : alookup (CombatProcessor.process events ents).1 k = some t) :
    t.combat_state.is_alive = true := by
  simp only [CombatProcessor.process, combat_cleanup] at he ht
  rw [alookup_mapValues] at he ht
  set M := (combat_step2 (combat_step1 events ents {}).1
    (combat_step1 events ents {}).2).1 with hM
  cases hL : alookup M eid with
  | none => rw [hL] at he; simp at he
  | some e0 =>
    rw [hL] at he
    cases hL' : alookup M k with
    | none => rw [hL'] at ht; simp at ht
    | some t0 =>
      rw [hL'] at ht
      simp only [Option.map] at he ht
      have he0 : e = cleanupEntity M e0 := (Option.some.inj he).symm
      have ht0 : t = cleanupEntity M t0 := (Option.some.inj ht).symm
      have halive0 : e0.combat_state.is_alive = true := by
        rw [he0, cleanupEntity_is_alive] at halive
        exact halive
      rw [he0] at hk
      simp only [cleanupEntity, halive0, if_true] at hk
      have hpred := (List.mem_filter.mp hk).2
      simp only [hL'] at hpred
      rw [ht0, cleanupEntity_is_alive]
      exact hpred

/-- Two living entities; entity 1 carries threat against entity 2. -/
def w4ents : EntMap :=
  [(1, { session_id := 1, combat_state := { threat_table := [(2, 3)] } }),
   (2, { session_id := 2 })]

/-- Witness for C4's amended theorem: the surviving threat key 2 of living
entity 1 resolves to the living entity 2. -/
theorem threat_cleanup_for_living_entities_witness :
    ({ session_id := 2 } : Entity).combat_state.is_alive = true :=
  threat_cleanup_for_living_entities [] w4ents 1
    { session_id := 1, combat_state := { threat_table := [(2, 3)] } }
    (by decide) (by decide) 2 3 (by decide) { session_id := 2 } (by decide)

-- ---------------------------------------------------------------------------
-- C8: the health cap under combat
-- ---------------------------------------------------------------------------

/-- The invariant C8 claims the combat processor preserves. -/
def HealthCapHolds (entities : EntMap) : Prop :=
  ∀ p ∈ entities, p.2.combat_state.health ≤ p.2.combat_state.max_health

instance (entities : EntMap) : Decidable (HealthCapHolds entities) :=
  inferInstanceAs (Decidable
    (∀ p ∈ entities, p.2.combat_state.health ≤ p.2.combat_state.max_health))

/-- Two default entities, both at health = max_health = 100. -/
def c8ents : EntMap := [(1, { session_id := 1 }), (2, { session_id := 2 })]

/-- A single attack with negative base damage (base_damage is i32 and the
source never validates its sign). -/
def c8evs : List GameEvent :=
  [.combat { session_id := 1, target_session_id := 2
             base_damage := -100, damage_type := .PHYSICAL }]

/-- Pointwise domination used to track the combat pipeline: same key,
health no larger, max_health identical. -/
def healthLe (p q : Nat × Entity) : Prop :=
  p.1 = q.1 ∧ p.2.combat_state.health ≤ q.2.combat_state.health ∧
    p.2.combat_state.max_health = q.2.combat_state.max_health

theorem healthDominated_refl (m : EntMap) : List.Forall₂ healthLe m m := by
  induction m with
  | nil => exact List.Forall₂.nil
  | cons p rest ih => exact List.Forall₂.cons ⟨rfl, le_refl _, rfl⟩ ih

theorem healthDominated_trans {a b c : EntMap} (h1 : List.Forall₂ healthLe a b)
    (h2 : List.Forall₂ healthLe b c) : List.Forall₂ healthLe a c := by
  induction h1 generalizing c with
  | nil => cases h2; exact List.Forall₂.nil
  | cons hpq _h ih =>
    cases h2 with
    | cons hqr h' =>
      exact List.Forall₂.cons
        ⟨hpq.1.trans hqr.1, hpq.2.1.trans hqr.2.1, hpq.2.2.trans hqr.2.2⟩ (ih h')

theorem healthDominated_mem {a b : EntMap} (h : List.Forall₂ healthLe a b)
    {p : Nat × Entity} (hp : p ∈ a) : ∃ q ∈ b, healthLe p q := by
  induction h with
  | nil => cases hp
  | cons hpq _h ih =>
    rcases List.mem_cons.mp hp with rfl | hp'
    · exact ⟨_, List.mem_cons_self _ _, hpq⟩
    · obtain ⟨q, hq, hr⟩ := ih hp'
      exact ⟨q, List.mem_cons_of_mem _ hq, hr⟩

theorem aupdate_healthDominated (m : EntMap) (k : Nat) (f : Entity → Entity)
    (v : Entity) (hv : alookup m k = some v)
    (h1 : (f v).combat_state.health ≤ v.combat_state.health)
    (h2 : (f v).combat_state.max_health = v.combat_state.max_health) :
    List.Forall₂ healthLe (aupdate m k f) m := by
  induction m with
  | nil => exact List.Forall₂.nil
  | cons p rest ih =>
    obtain ⟨k', w⟩ := p
    by_cases hk : k' = k
    · simp only [alookup, if_pos hk] at hv
      have hw : w = v := Option.some.inj hv
      simp only [aupdate, if_pos hk]
      subst hw
      exact List.Forall₂.cons ⟨rfl, h1, h2⟩ (healthDominated_refl rest)
    · simp only [alookup, if_neg hk] at hv
      simp only [aupdate, if_neg hk]
      exact List.Forall₂.cons ⟨rfl, le_refl _, rfl⟩ (ih hv)

/-- Rat.floor is the Int.floor of the FloorRing instance it builds. -/
theorem rat_floor_eq_intFloor (q : Rat) : q.floor = ⌊q⌋ := rfl

/-- Nonnegative base damage yields nonnegative mitigated damage: the
clamped mitigation lies in [0, 3/4], so the factor 1 - clamped is
positive. -/
theorem compute_actual_damage_nonneg (base : Int) (mit : Rat) (h : 0 ≤ base) :
    0 ≤ compute_actual_damage base mit := by
  simp only [compute_actual_damage, roundHalfAwayFromZero]
  have hcl : min (max mit 0) kMaxMitigation ≤ 1 := by
    refine (min_le_right _ _).trans ?_
    norm_num [kMaxMitigation]
  have hq : (0 : Rat) ≤ (base : Rat) * (1 - min (max mit 0) kMaxMitigation) := by
    apply mul_nonneg
    · exact_mod_cast h
    · linarith
  rw [if_neg (not_lt.mpr hq), rat_floor_eq_intFloor]
  apply Int.floor_nonneg.mpr
  linarith

/-- apply_damage only ever lowers the target's health when the base damage
is nonnegative, and it never touches max_health. -/
theorem apply_damage_health (attacker_id : Nat) (base : Int) (dt : DamageType)
    (target : Entity) (result : CombatResult) (h : 0 ≤ base) :
    (apply_damage attacker_id base dt target result).1.combat_state.health
      ≤ target.combat_state.health ∧
    (apply_damage attacker_id base dt target result).1.combat_state.max_health
      = target.combat_state.max_health := by
  have hd := compute_actual_damage_nonneg base (get_mitigation target.combat_state dt) h
  simp only [apply_damage]
  split_ifs <;> exact ⟨by simp; omega, rfl⟩

/-- Events whose combat payload carries nonnegative base damage. -/
def eventDamageNonnegB : GameEvent → Bool
  | .combat ce => decide (0 ≤ ce.base_damage)
  | _ => true

theorem processAttackEvent_dominated (entities : EntMap) (result : CombatResult)
    (ev : GameEvent) (hev : eventDamageNonnegB ev = true) :
    List.Forall₂ healthLe (processAttackEvent entities result ev).1 entities := by
  cases ev with
  | movement e => exact healthDominated_refl _
  | spell_cast e => exact healthDominated_refl _
  | combat ce =>
    have hbase : 0 ≤ ce.base_damage := by
      simpa [eventDamageNonnegB] using hev
    cases ce.action
    simp only [processAttackEvent]
    cases hA : alookup entities ce.session_id with
    | none => exact healthDominated_refl _
    | some attacker =>
      by_cases hal : attacker.combat_state.is_alive = false
      · simp only [hal, if_true]
        exact healthDominated_refl _
      · simp only [hal, if_false]
        cases hT : alookup entities ce.target_session_id with
        | none => exact healthDominated_refl _
        | some target =>
          by_cases htal : target.combat_state.is_alive = false
          · simp only [htal, if_true]
            exact healthDominated_refl _
          · simp only [htal, if_false]
            have hb := apply_damage_health ce.session_id ce.base_damage
              ce.damage_type target result hbase
            exact aupdate_healthDominated entities ce.target_session_id _ target hT hb.1 hb.2

theorem npc_auto_attack_step_dominated (entities : EntMap) (result : CombatResult)
    (npc_id : Nat) :
    List.Forall₂ healthLe (npc_auto_attack_step entities result npc_id).1 entities := by
  simp only [npc_auto_attack_step]
  cases hN : alookup entities npc_id with
  | none => exact healthDominated_refl _
  | some npc =>
    dsimp only
    split_ifs with h1 h2 h3 h4 h5
    · exact healthDominated_refl _
    · exact healthDominated_refl _
    · exact healthDominated_refl _
    · exact healthDominated_refl _
    · exact healthDominated_refl _
    · cases hT : alookup entities
          (select_highest_threat entities npc.combat_state.threat_table).1 with
      | none => exact healthDominated_refl _
      | some target =>
        have hbase : 0 ≤ npc.combat_state.base_attack_damage :=
          le_of_lt (lt_of_not_le h3)
        have hb := apply_damage_health npc_id npc.combat_state.base_attack_damage
          .PHYSICAL target result hbase
        exact aupdate_healthDominated entities _ _ target hT hb.1 hb.2

theorem combat_step1_dominated (events : List GameEvent) :
    ∀ acc : EntMap × CombatResult,
      (∀ ev ∈ events, eventDamageNonnegB ev = true) →
      List.Forall₂ healthLe
        ((events.foldl (fun p ev => processAttackEvent p.1 p.2 ev) acc).1) acc.1 := by
  induction events with
  | nil =>
    intro acc _h
    exact healthDominated_refl _
  | cons ev rest ih =>
    intro acc h
    simp only [List.foldl_cons]
    exact healthDominated_trans
      (ih _ (fun e he => h e (List.mem_cons_of_mem _ he)))
      (processAttackEvent_dominated acc.1 acc.2 ev (h ev (List.mem_cons_self _ _)))

theorem combat_step2_fold_dominated (keys : List Nat) :
    ∀ acc : EntMap × CombatResult,
      List.Forall₂ healthLe
        ((keys.foldl (fun p nid => npc_auto_attack_step p.1 p.2 nid) acc).1) acc.1 := by
  induction keys with
  | nil =>
    intro acc
    exact healthDominated_refl _
  | cons nid rest ih =>
    intro acc
    simp only [List.foldl_cons]
    exact healthDominated_trans (ih _) (npc_auto_attack_step_dominated acc.1 acc.2 nid)

theorem cleanupEntity_health (m : EntMap) (x : Entity) :
    (cleanupEntity m x).combat_state.health = x.combat_state.health ∧
    (cleanupEntity m x).combat_state.max_health = x.combat_state.max_health := by
  by_cases h : x.combat_state.is_alive <;> simp [cleanupEntity, h]

theorem combat_cleanup_dominated (m : EntMap) :
    List.Forall₂ healthLe (combat_cleanup m) m := by
  have hgen : ∀ l : EntMap,
      List.Forall₂ healthLe (l.map (fun p => (p.1, cleanupEntity m p.2))) l := by
    intro l
    induction l with
    | nil => exact List.Forall₂.nil
    | cons p rest ih =>
      exact List.Forall₂.cons
        ⟨rfl, le_of_eq (cleanupEntity_health m p.2).1, (cleanupEntity_health m p.2).2⟩ ih
  exact hgen m

/-- C8 amended: for every entity map satisfying health ≤ max_health and
every event batch whose combat events all carry nonnegative base_damage,
the invariant still holds after the combat processor runs. (The claim as
stated — "any i32 base_damage value" — fails for negative damage, which
heals the target above max_health.) -/
theorem combat_preserves_health_cap (events : List GameEvent) (ents : EntMap)
    (hcap : HealthCapHolds ents)
    (hdmg : ∀ ev ∈ events, eventDamageNonnegB ev = true) :
    HealthCapHolds (CombatProcessor.process events ents).1 := by
  intro p hp
  have hs1 : List.Forall₂ healthLe (combat_step1 events ents {}).1 ents :=
    combat_step1_dominated events (ents, {}) hdmg
  have hs2 : List.Forall₂ healthLe
      (combat_step2 (combat_step1 events ents {}).1 (combat_step1 events ents {}).2).1
      (combat_step1 events ents {}).1 :=
    combat_step2_fold_dominated ((combat_step1 events ents {}).1.map Prod.fst)
      ((combat_step1 events ents {}).1, (combat_step1 events ents {}).2)
  have hs3 : List.Forall₂ healthLe
      (combat_cleanup (combat_step2 (combat_step1 events ents {}).1
        (combat_step1 events ents {}).2).1)
      (combat_step2 (combat_step1 events ents {}).1 (combat_step1 events ents {}).2).1 :=
    combat_cleanup_dominated _
  have hdom : List.Forall₂ healthLe (CombatProcessor.process events ents).1 ents :=
    healthDominated_trans (healthDominated_trans hs3 hs2) hs1
  obtain ⟨q, hq, _hkey, hh, hm⟩ := healthDominated_mem hdom hp
  calc p.2.combat_state.health ≤ q.2.combat_state.health := hh
    _ ≤ q.2.combat_state.max_health := hcap q hq
    _ = p.2.combat_state.max_health := hm.symm

/-- One ordinary positive-damage attack for the witness. -/
def w8evs : List GameEvent :=
  [.combat { session_id := 1, target_session_id := 2
             base_damage := 40, damage_type := .PHYSICAL }]

/-- Witness for C8's amended theorem on a concrete positive-damage batch. -/
theorem combat_preserves_health_cap_witness :
    HealthCapHolds (CombatProcessor.process w8evs c8ents).1 :=
  combat_preserves_health_cap w8evs c8ents (by decide) (by decide)

/-- C8 counterexample: with base_damage = -100 and zero armor, the actual
damage is -100, so the target's health rises from 100 to 200 while
max_health stays 100 — the invariant fails after the combat processor. -/
theorem negative_damage_breaks_health_cap :
    HealthCapHolds c8ents ∧
    (alookup (CombatProcessor.process c8evs c8ents).1 2).map
      (fun e => e.combat_state.health) = some 200 ∧
    ¬ HealthCapHolds (CombatProcessor.process c8evs c8ents).1 := by decide

end Wow
